import Mathlib

/-!
Shallow embedding of the fitness-tracker application (`src/index.tsx`):
the tracking data model, the day/food/metrics update handlers, the week
reset, the report-generation gate and prompt day-list, the last-recorded
weight selection, and the goal-progress calculator.

JavaScript numbers are modelled by `JsNum` (either `nan` or a rational);
object identity and in-place mutation, which matter for the update
handlers, are modelled by a small heap of day and food objects addressed
by natural numbers.
-/

namespace FitnessApp

/-- Model of a JavaScript number: `NaN` or a rational value. -/
inductive JsNum where
  | nan : JsNum
  | num (q : ℚ) : JsNum
deriving DecidableEq, Repr

/-- Truthiness of `x > 0` on a JS number: false for `NaN`. -/
def JsNum.gt0 : JsNum → Bool
  | .nan => false
  | .num q => decide (0 < q)

/-- Numeric value of the digit character list `cs`, accumulating into `acc`. -/
def digitsVal : List Char → Nat → Nat
  | [], acc => acc
  | c :: cs, acc => digitsVal cs (acc * 10 + (c.toNat - 48))

/-- Model of the JavaScript builtin `parseFloat`: optional sign, decimal
digits with an optional fractional part; any string with no leading
numeric prefix (in particular the empty string) yields `NaN`. -/
def parseFloat (s : String) : JsNum :=
  let cs := s.data.dropWhile (fun c => c = ' ')
  let signAndRest : ℚ × List Char :=
    match cs with
    | '-' :: rest => (-1, rest)
    | '+' :: rest => (1, rest)
    | _ => (1, cs)
  let sign := signAndRest.1
  let cs1 := signAndRest.2
  let intDigits := cs1.takeWhile Char.isDigit
  let cs2 := cs1.dropWhile Char.isDigit
  let fracDigits : List Char :=
    match cs2 with
    | '.' :: rest => rest.takeWhile Char.isDigit
    | _ => []
  if intDigits.isEmpty && fracDigits.isEmpty then JsNum.nan
  else
    JsNum.num (sign * ((digitsVal intDigits 0 : ℚ) +
      (digitsVal fracDigits 0 : ℚ) / ((10 : ℚ) ^ fracDigits.length)))

/-- The `DailyFoodLog` record: five free-text meal slots. -/
structure DailyFoodLog where
  breakfast : String
  lunch : String
  snack : String
  dinner : String
  other : String
deriving DecidableEq, Repr

/-- The `Metrics` record: four free-text fields. -/
structure Metrics where
  strength : String
  measurements : String
  bmi : String
  dailyActivity : String
deriving DecidableEq, Repr

/-- The `UserProfile` record. -/
structure UserProfile where
  name : String
  age : ℚ
  objective : String
  initialWeight : ℚ
  weightGoal : ℚ
deriving DecidableEq, Repr

/-- A `DailyLog` value as read out of the state: weight, food, mood and
activity level. -/
structure DailyLog where
  weight : JsNum
  food : DailyFoodLog
  mood : String
  activityLevel : String
deriving DecidableEq, Repr

/-- `Object.values(day.food)` in insertion order. -/
def foodValues (f : DailyFoodLog) : List String :=
  [f.breakfast, f.lunch, f.snack, f.dinner, f.other]

/-- `Object.values(metrics)` in insertion order. -/
def metricsValues (m : Metrics) : List String :=
  [m.strength, m.measurements, m.bmi, m.dailyActivity]

/-- The module constant `initialDailyLog`: blank day, activity level
`Moderado`. -/
def initialDailyLog : DailyLog :=
  { weight := JsNum.num 0
    food := { breakfast := "", lunch := "", snack := "", dinner := "", other := "" }
    mood := ""
    activityLevel := "Moderado" }

/-- The module constant `initialMetrics`: all four fields empty. -/
def initialMetrics : Metrics :=
  { strength := "", measurements := "", bmi := "", dailyActivity := "" }

/-- The module constant `dayNames`. -/
def dayNames : List String :=
  ["Lunes", "Martes", "Miércoles", "Jueves", "Viernes", "Sábado", "Domingo"]

/-!
Heap model of the mutable day/food objects. A `DailyLog` object on the JS
heap holds its scalar fields directly and a reference (address) to its
food object; arrays are lists of day-object addresses. This captures the
aliasing behaviour of the handlers: `[...weeklyLog]` copies the list of
addresses but not the objects behind them.
-/

/-- A day object on the heap: scalar fields plus the address of its
`DailyFoodLog` object. -/
structure DayObj where
  weight : JsNum
  foodRef : Nat
  mood : String
  activityLevel : String
deriving DecidableEq, Repr

/-- The heap: day objects and food objects by address, plus the next free
address of each kind. -/
structure Heap where
  days : Nat → DayObj
  foods : Nat → DailyFoodLog
  nextDay : Nat
  nextFood : Nat

/-- The component state of the `App` component: the heap, the
`weeklyLog` array (as a list of day-object addresses), `currentDayIndex`,
`metrics`, `summary` and `loading`. -/
structure AppState where
  heap : Heap
  weeklyLog : List Nat
  currentDayIndex : Nat
  metrics : Metrics
  summary : Option String
  loading : Bool

/-- Addresses of the seven day objects built for the module constant
`initialWeeklyLog` (`Array(7).fill(null).map(() => ({...initialDailyLog,
food: {...initialDailyLog.food}}))`): seven fresh day objects, each with
its own fresh blank food object. -/
def initialWeeklyLogRefs : List Nat := [0, 1, 2, 3, 4, 5, 6]

/-- The heap at module load: day objects 0–6 are blank with food object
`i` attached to day `i`; food objects 0–6 are blank. Addresses from 7 up
are free. -/
def initialHeap : Heap :=
  { days := fun a => { weight := JsNum.num 0, foodRef := a, mood := "", activityLevel := "Moderado" }
    foods := fun _ => initialDailyLog.food
    nextDay := 7
    nextFood := 7 }

/-- The fresh-install state: `weeklyLog` is (aliases) the module constant
`initialWeeklyLog`, metrics blank, no summary, not loading. -/
def initialState : AppState :=
  { heap := initialHeap
    weeklyLog := initialWeeklyLogRefs
    currentDayIndex := 0
    metrics := initialMetrics
    summary := none
    loading := false }

/-- Reading day `i` of the state's weekly log into a `DailyLog` value
(dereferencing the day object and its food object). -/
def readDay (s : AppState) (i : Nat) : DailyLog :=
  let d := s.heap.days (s.weeklyLog.getD i 0)
  { weight := d.weight, food := s.heap.foods d.foodRef
    mood := d.mood, activityLevel := d.activityLevel }

/-- The list of `DailyLog` values currently held by the weekly log. -/
def daysOf (s : AppState) : List DailyLog :=
  s.weeklyLog.map fun r =>
    let d := s.heap.days r
    { weight := d.weight, food := s.heap.foods d.foodRef
      mood := d.mood, activityLevel := d.activityLevel }

/-- The computed-key update `{...day, [name]: name === 'weight' ?
parseFloat(value) : value}` of `handleLogChange`, at the three field
names its call sites pass (`weight`, `activityLevel`, `mood`). -/
def updDayField (d : DayObj) (name value : String) : DayObj :=
  if name = "weight" then { d with weight := parseFloat value }
  else if name = "mood" then { d with mood := value }
  else if name = "activityLevel" then { d with activityLevel := value }
  else d

/-- `handleLogChange`: copies the array (`[...weeklyLog]`), builds a fresh
day object from the current day with one field updated, and stores its
address at `currentDayIndex` of the copy. The old day object is not
mutated. -/
def handleLogChange (s : AppState) (name value : String) : AppState :=
  let dref := s.weeklyLog.getD s.currentDayIndex 0
  let d := s.heap.days dref
  let nd := s.heap.nextDay
  { s with
    heap := { s.heap with
      days := fun a => if a = nd then updDayField d name value else s.heap.days a
      nextDay := nd + 1 }
    weeklyLog := s.weeklyLog.set s.currentDayIndex nd }

/-- The computed-key update `{...food, [name]: value}` of
`handleFoodChange`, at the five meal-slot names its call sites pass. -/
def updFoodField (f : DailyFoodLog) (name value : String) : DailyFoodLog :=
  if name = "breakfast" then { f with breakfast := value }
  else if name = "lunch" then { f with lunch := value }
  else if name = "snack" then { f with snack := value }
  else if name = "dinner" then { f with dinner := value }
  else if name = "other" then { f with other := value }
  else f

/-- `handleFoodChange`: copies the array (`[...weeklyLog]`), allocates a
fresh food object, and assigns it to `newWeeklyLog[currentDayIndex].food`
— an in-place mutation of the existing day object, which is still
referenced by the pre-update array (and, on a fresh session, by the
module constant `initialWeeklyLog`). -/
def handleFoodChange (s : AppState) (name value : String) : AppState :=
  let dref := s.weeklyLog.getD s.currentDayIndex 0
  let d := s.heap.days dref
  let nf := s.heap.nextFood
  { s with
    heap := { s.heap with
      foods := fun a => if a = nf then updFoodField (s.heap.foods d.foodRef) name value
               else s.heap.foods a
      days := fun a => if a = dref then { d with foodRef := nf } else s.heap.days a
      nextFood := nf + 1 }
    weeklyLog := s.weeklyLog }

/-- `handleMetricsChange`: functional update of one metrics field. -/
def handleMetricsChange (s : AppState) (name value : String) : AppState :=
  { s with metrics :=
      if name = "strength" then { s.metrics with strength := value }
      else if name = "measurements" then { s.metrics with measurements := value }
      else if name = "bmi" then { s.metrics with bmi := value }
      else if name = "dailyActivity" then { s.metrics with dailyActivity := value }
      else s.metrics }

/-- `handleNewWeek`: when the user confirms, sets the weekly log back to
the module constant `initialWeeklyLog` (the same array of the same day
objects — the heap is not touched), resets metrics, clears the summary
and returns to day 0; declining is a no-op. -/
def handleNewWeek (s : AppState) (confirmed : Bool) : AppState :=
  if confirmed then
    { s with
      weeklyLog := initialWeeklyLogRefs
      metrics := initialMetrics
      summary := none
      currentDayIndex := 0 }
  else s

/-!
Report generation: the has-data gate, the prompt's day-list, and the
state-level control flow of `generateSummary`.
-/

/-- JS string truthiness: non-empty. -/
def strTruthy (s : String) : Bool := decide (s ≠ "")

/-- One day's disjunct of the has-data check:
`day.weight > 0 || Object.values(day.food).some(f => f) || day.mood`. -/
def dayHasData (d : DailyLog) : Bool :=
  d.weight.gt0 || (foodValues d.food).any strTruthy || strTruthy d.mood

/-- The `hasData` guard of `generateSummary`. -/
def hasData (log : List DailyLog) (m : Metrics) : Bool :=
  log.any dayHasData || (metricsValues m).any strTruthy

/-- Display of a JS number inside a template literal. The claims never
inspect the digits of a weight, only whether the surrounding text is
empty, so integers are printed exactly and other rationals via their
numerator and denominator. -/
def JsNum.display : JsNum → String
  | .nan => "NaN"
  | .num q => if q.den = 1 then toString q.num else toString q.num ++ "/" ++ toString q.den

/-- `Array.prototype.join(sep)`. -/
def joinSep (sep : String) : List String → String
  | [] => ""
  | [x] => x
  | x :: y :: ys => x ++ sep ++ joinSep sep (y :: ys)

/-- The `dayData` string built for one day inside the prompt template:
the four candidate components (`Peso`, `Comidas`, `Sensaciones`,
`Nivel de Actividad`), of which the first three are guarded by `&&` and
the fourth is unconditional, filtered by truthiness and joined with
`"; "`. -/
def dayData (day : DailyLog) : String :=
  joinSep "; " (([
    if day.weight.gt0 then some ("Peso: " ++ day.weight.display ++ " kg") else none,
    if (foodValues day.food).any strTruthy then
      some ("Comidas: Desayuno(" ++ day.food.breakfast ++ "), Almuerzo(" ++
        day.food.lunch ++ "), Merienda(" ++ day.food.snack ++ "), Cena(" ++
        day.food.dinner ++ "), Otros(" ++ day.food.other ++ ")")
    else none,
    if strTruthy day.mood then some ("Sensaciones: " ++ day.mood) else none,
    some ("Nivel de Actividad: " ++ day.activityLevel)
  ]).filterMap id)

/-- One mapped element of the prompt's day list:
`dayData ? `- ${dayNames[index]}: ${dayData}` : ''`. -/
def dayLine (i : Nat) (day : DailyLog) : String :=
  let dd := dayData day
  if strTruthy dd then "- " ++ dayNames.getD i "" ++ ": " ++ dd else ""

/-- The day-list of the `DATOS DE LA SEMANA` section:
`weeklyLog.map((day, index) => ...).filter(Boolean)`. -/
def weekLines (log : List DailyLog) : List String :=
  (log.enum.map fun p => dayLine p.1 p.2).filter strTruthy

/-- `${x || fallback}` for a string-valued field. -/
def strOr (x fallback : String) : String := if x = "" then fallback else x

/-- `${x || fallback}` for a number-valued field (`0` is falsy). -/
def numOr (x : ℚ) (fallback : String) : String :=
  if x = 0 then fallback else (JsNum.num x).display

/-- The full prompt template of `generateSummary` (user data, week
day-list, metrics, and the fixed instruction block). -/
def buildPrompt (p : Option UserProfile) (log : List DailyLog) (m : Metrics) : String :=
  "DATOS DEL USUARIO:\n" ++
  "- Nombre: " ++ strOr (match p with | some pp => pp.name | none => "") "No especificado" ++ "\n" ++
  "- Edad: " ++ numOr (match p with | some pp => pp.age | none => 0) "No especificado" ++ "\n" ++
  "- Objetivo Principal: " ++ strOr (match p with | some pp => pp.objective | none => "") "No especificado" ++ "\n" ++
  "- Peso Inicial: " ++ numOr (match p with | some pp => pp.initialWeight | none => 0) "No especificado" ++ " kg\n" ++
  "- Peso Meta: " ++ numOr (match p with | some pp => pp.weightGoal | none => 0) "No especificado" ++ " kg\n\n" ++
  "DATOS DE LA SEMANA:\n" ++
  joinSep "\n" (weekLines log) ++ "\n\n" ++
  "DATOS DE MÉTRICAS Y ACTIVIDAD FÍSICA:\n" ++
  "- Fuerza: " ++ strOr m.strength "No registrado" ++ "\n" ++
  "- Medidas: " ++ strOr m.measurements "No registrado" ++ "\n" ++
  "- BMI: " ++ strOr m.bmi "No registrado" ++ "\n" ++
  "- Actividad Física Detallada: " ++ strOr m.dailyActivity "No registrado" ++ "\n\n" ++
  "INSTRUCCIONES PARA EL INFORME:\n" ++
  "Actúa como un coach de bienestar profesional. Genera un informe semanal detallado en formato HTML."

/-- Outcome of one `generateSummary` invocation with respect to the
provider: either the no-data skip (no request issued) or a generation
request carrying the built prompt. -/
inductive GenAction where
  | skippedNoData : GenAction
  | requested (prompt : String) : GenAction
deriving DecidableEq, Repr

/-- The provider-facing behaviour of `generateSummary`: skip with an
alert when `hasData` is false, otherwise issue one request with the
built prompt. -/
def generateSummaryAction (p : Option UserProfile) (log : List DailyLog) (m : Metrics) : GenAction :=
  if hasData log m then GenAction.requested (buildPrompt p log m)
  else GenAction.skippedNoData

/-- The state-level control flow of `generateSummary`:
`setLoading(true); setSummary(null);` then either the no-data early
return (`setLoading(false)`), or the provider call whose success stores
the response and whose failure alerts, both followed by the `finally`
block `setLoading(false)`. The provider outcome is supplied as an
oracle. -/
def generateSummaryRun (s : AppState) (providerResult : Except Unit String) : AppState :=
  let s1 := { s with loading := true, summary := none }
  if hasData (daysOf s) s.metrics then
    match providerResult with
    | .ok text => { s1 with summary := some text, loading := false }
    | .error _ => { s1 with loading := false }
  else
    { s1 with loading := false }

/-!
Last recorded weight and the progress calculator.
-/

/-- The current-weight selection in `handleShareSummary` (PDF export):
`weeklyLog.filter(d => d.weight > 0).pop()?.weight ?? profile.initialWeight`. -/
def lastWeightForPdf (log : List DailyLog) (init : ℚ) : JsNum :=
  match (log.filter fun d => d.weight.gt0).getLast? with
  | some d => d.weight
  | none => JsNum.num init

/-- The current-weight selection in `TrackerScreen` (on-screen tracker):
the same expression as in `handleShareSummary`. -/
def lastWeightOnScreen (log : List DailyLog) (init : ℚ) : JsNum :=
  match (log.filter fun d => d.weight.gt0).getLast? with
  | some d => d.weight
  | none => JsNum.num init

/-- Claim-side rule for the current weight, following the spec words:
the weight of the highest-indexed day whose weight is greater than 0
(the first hit scanning the week from the end), else the profile's
initial weight. -/
def lastWeightSpecRule (log : List DailyLog) (init : ℚ) : JsNum :=
  match log.reverse.find? (fun d => d.weight.gt0) with
  | some d => d.weight
  | none => JsNum.num init

/-- Model of `Number.prototype.toFixed(2)` on a (non-negative) rational:
round to the nearest hundredth and print with two decimal digits. -/
def toFixed2 (q : ℚ) : String :=
  let m : Int := ⌊q * 100 + 1 / 2⌋
  toString (m / 100) ++ "." ++
    (if (m % 100).toNat < 10 then "0" ++ toString (m % 100).toNat
     else toString (m % 100).toNat)

/-- `Math.abs` on a rational. -/
def jsAbs (a : ℚ) : ℚ := if a < 0 then -a else a

/-- `Math.min` on two rationals. -/
def jsMin (a b : ℚ) : ℚ := if a ≤ b then a else b

/-- `Math.max` on two rationals. -/
def jsMax (a b : ℚ) : ℚ := if a ≤ b then b else a

/-- `calculateProgress`: the clamped percent-complete value and the
status sentence, translated branch by branch from the source. -/
def calculateProgress (initial current goal : ℚ) : ℚ × String :=
  if initial = goal then (100, "¡Ya estás en tu peso meta!")
  else
    let totalDistance := jsAbs (goal - initial)
    let distanceCovered := if goal > initial then current - initial else initial - current
    let progress := jsMax 0 (jsMin (distanceCovered / totalDistance * 100) 100)
    let diff := jsAbs (current - goal)
    let progressText :=
      if goal > initial then
        if current ≥ goal then
          "¡Felicidades! Has alcanzado y superado tu meta por " ++ toFixed2 (jsAbs (current - goal)) ++ " kg."
        else if current ≥ initial then
          "Has ganado " ++ toFixed2 (jsAbs (current - initial)) ++ " kg. ¡Te faltan " ++ toFixed2 diff ++ " kg para tu meta!"
        else
          "Has perdido " ++ toFixed2 (jsAbs (current - initial)) ++ " kg. Estás a " ++ toFixed2 diff ++ " kg de tu meta."
      else
        if current ≤ goal then
          "¡Felicidades! Has alcanzado y superado tu meta por " ++ toFixed2 (jsAbs (current - goal)) ++ " kg."
        else if current ≤ initial then
          "Has perdido " ++ toFixed2 (jsAbs (initial - current)) ++ " kg. ¡Te faltan " ++ toFixed2 diff ++ " kg para tu meta!"
        else
          "Has ganado " ++ toFixed2 (jsAbs (current - initial)) ++ " kg. Estás a " ++ toFixed2 diff ++ " kg de tu meta."
    (progress, progressText)

/-!
Helper lemmas.
-/

/-- Appending anything to a non-empty string stays non-empty. -/
theorem append_ne_empty_left {a : String} (h : a ≠ "") (b : String) : a ++ b ≠ "" := by
  intro he
  apply h
  apply String.ext
  have hd := congrArg String.data he
  rw [String.data_append] at hd
  exact (List.append_eq_nil.mp hd).1

set_option maxHeartbeats 1000000 in
/-- The `dayData` string of a day is never empty: the unconditional
`Nivel de Actividad` component survives the truthiness filter in every
branch. -/
theorem dayData_ne_empty (day : DailyLog) : dayData day ≠ "" := by
  unfold dayData
  split_ifs <;> simp [List.filterMap, joinSep] <;>
    (repeat apply append_ne_empty_left) <;> decide

/-- Unfolding of string truthiness. -/
theorem strTruthy_eq_true {s : String} : strTruthy s = true ↔ s ≠ "" := by
  simp [strTruthy]

/-- Every mapped day line is truthy, for every day whatsoever. -/
theorem dayLine_truthy (i : Nat) (day : DailyLog) : strTruthy (dayLine i day) = true := by
  unfold dayLine
  rw [if_pos (strTruthy_eq_true.mpr (dayData_ne_empty day))]
  rw [strTruthy_eq_true]
  apply append_ne_empty_left
  apply append_ne_empty_left
  apply append_ne_empty_left
  decide

/-- The last element of a filtered list is the first match scanning the
list from the end. -/
theorem filter_getLast?_eq_reverse_find? (p : DailyLog → Bool) (l : List DailyLog) :
    (l.filter p).getLast? = l.reverse.find? p := by
  rw [← List.head?_reverse, ← List.filter_reverse, List.filter_head?]

/-- `jsMin` agrees with `min` on `ℚ`. -/
theorem jsMin_eq_min (a b : ℚ) : jsMin a b = min a b := by rw [jsMin, min_def]

/-- `jsMax` agrees with `max` on `ℚ`. -/
theorem jsMax_eq_max (a b : ℚ) : jsMax a b = max a b := by rw [jsMax, max_def]

/-- `jsAbs` agrees with `abs` on `ℚ`. -/
theorem jsAbs_eq_abs (a : ℚ) : jsAbs a = |a| := by
  unfold jsAbs
  split_ifs with h
  · exact (abs_of_neg h).symm
  · exact (abs_of_nonneg (le_of_not_lt h)).symm

/-- Closed form of the progress value in the gain direction. -/
theorem progress_gain (I C G : ℚ) (h : I < G) :
    (calculateProgress I C G).1 = max 0 (min ((C - I) / (G - I) * 100) 100) := by
  unfold calculateProgress
  rw [if_neg (ne_of_lt h)]
  simp only [if_pos h]
  rw [jsMax_eq_max, jsMin_eq_min, jsAbs_eq_abs, abs_of_pos (by linarith : (0:ℚ) < G - I)]

/-- Closed form of the progress value in the loss direction. -/
theorem progress_loss (I C G : ℚ) (h : G < I) :
    (calculateProgress I C G).1 = max 0 (min ((I - C) / (I - G) * 100) 100) := by
  unfold calculateProgress
  rw [if_neg (ne_of_gt h)]
  simp only [if_neg (not_lt.mpr (le_of_lt h))]
  rw [jsMax_eq_max, jsMin_eq_min, jsAbs_eq_abs, abs_of_neg (by linarith : G - I < 0)]
  ring_nf

/-- Monotonicity of the progress value in the gain direction. -/
theorem gain_mono (I G : ℚ) (h : I < G) (C C' : ℚ) (h1 : C ≤ C') :
    (calculateProgress I C G).1 ≤ (calculateProgress I C' G).1 := by
  rw [progress_gain I C G h, progress_gain I C' G h]
  have hpos : (0:ℚ) < G - I := by linarith
  gcongr

/-- Antitonicity of the progress value in the loss direction. -/
theorem loss_mono (I G : ℚ) (h : G < I) (C C' : ℚ) (h1 : C' ≤ C) :
    (calculateProgress I C G).1 ≤ (calculateProgress I C' G).1 := by
  rw [progress_loss I C G h, progress_loss I C' G h]
  have hpos : (0:ℚ) < I - G := by linarith
  gcongr

/-- On `[I, G]` (gain direction) the progress value is 100 exactly at the
goal. -/
theorem gain_eq100_iff (I G : ℚ) (h : I < G) (C : ℚ) (hC1 : I ≤ C) (hC2 : C ≤ G) :
    ((calculateProgress I C G).1 = 100 ↔ C = G) := by
  rw [progress_gain I C G h]
  have hpos : (0:ℚ) < G - I := by linarith
  have hx0 : 0 ≤ (C - I) / (G - I) * 100 :=
    mul_nonneg (div_nonneg (by linarith) (by linarith)) (by norm_num)
  have hx1 : (C - I) / (G - I) * 100 ≤ 100 := by
    have h1 : (C - I) / (G - I) ≤ 1 := (div_le_one hpos).mpr (by linarith)
    calc (C - I) / (G - I) * 100 ≤ 1 * 100 := mul_le_mul_of_nonneg_right h1 (by norm_num)
      _ = 100 := by ring
  rw [min_eq_left hx1, max_eq_right hx0]
  constructor
  · intro he
    have h2 : (C - I) / (G - I) * 100 = 1 * 100 := by rw [he]; ring
    have h3 := mul_right_cancel₀ (by norm_num : (100:ℚ) ≠ 0) h2
    rw [div_eq_one_iff_eq (ne_of_gt hpos)] at h3
    linarith
  · intro he
    rw [he, div_self (ne_of_gt hpos)]
    ring

/-- On `[G, I]` (loss direction) the progress value is 100 exactly at the
goal. -/
theorem loss_eq100_iff (I G : ℚ) (h : G < I) (C : ℚ) (hC1 : G ≤ C) (hC2 : C ≤ I) :
    ((calculateProgress I C G).1 = 100 ↔ C = G) := by
  rw [progress_loss I C G h]
  have hpos : (0:ℚ) < I - G := by linarith
  have hx0 : 0 ≤ (I - C) / (I - G) * 100 :=
    mul_nonneg (div_nonneg (by linarith) (by linarith)) (by norm_num)
  have hx1 : (I - C) / (I - G) * 100 ≤ 100 := by
    have h1 : (I - C) / (I - G) ≤ 1 := (div_le_one hpos).mpr (by linarith)
    calc (I - C) / (I - G) * 100 ≤ 1 * 100 := mul_le_mul_of_nonneg_right h1 (by norm_num)
      _ = 100 := by ring
  rw [min_eq_left hx1, max_eq_right hx0]
  constructor
  · intro he
    have h2 : (I - C) / (I - G) * 100 = 1 * 100 := by rw [he]; ring
    have h3 := mul_right_cancel₀ (by norm_num : (100:ℚ) ≠ 0) h2
    rw [div_eq_one_iff_eq (ne_of_gt hpos)] at h3
    linarith
  · intro he
    rw [he, div_self (ne_of_gt hpos)]
    ring

/-- The clamp keeps the progress value inside `[0, 100]` (gain). -/
theorem range_gain (I G : ℚ) (h : I < G) (C : ℚ) :
    0 ≤ (calculateProgress I C G).1 ∧ (calculateProgress I C G).1 ≤ 100 := by
  rw [progress_gain I C G h]
  exact ⟨le_max_left _ _, max_le (by norm_num) (min_le_right _ _)⟩

/-- The clamp keeps the progress value inside `[0, 100]` (loss). -/
theorem range_loss (I G : ℚ) (h : G < I) (C : ℚ) :
    0 ≤ (calculateProgress I C G).1 ∧ (calculateProgress I C G).1 ≤ 100 := by
  rw [progress_loss I C G h]
  exact ⟨le_max_left _ _, max_le (by norm_num) (min_le_right _ _)⟩

/-!
Claim theorems.
-/

/-- C1, counterexample: a completely blank week (weight 0, all food and
mood fields empty, default activity level) still contributes all seven
day lines to the prompt's day-list, with day 0's line carrying only the
activity level — the claim says such days are omitted entirely. -/
theorem c1_counterexample_blank_week_days_included :
    (weekLines (List.replicate 7 initialDailyLog)).length = 7 ∧
    (weekLines (List.replicate 7 initialDailyLog)).getD 0 "" =
      "- Lunes: Nivel de Actividad: Moderado" ∧
    initialDailyLog.weight.gt0 = false ∧
    (foodValues initialDailyLog.food).all (fun f => f = "") = true ∧
    initialDailyLog.mood = "" := by decide

/-- C1, amended: every day of the weekly log always has its line included
in the `DATOS DE LA SEMANA` day-list, regardless of its weight, food and
mood fields, because the unconditional activity-level component keeps
every day's `dayData` non-empty; no day is ever omitted. -/
theorem c1_amended_every_day_line_included (log : List DailyLog) :
    (weekLines log).length = log.length := by
  unfold weekLines
  rw [List.filter_eq_self.mpr]
  · rw [List.length_map, List.enum_length]
  · intro x hx
    obtain ⟨p, hp, rfl⟩ := List.mem_map.mp hx
    exact dayLine_truthy p.1 p.2

/-- C2, counterexample: updating the weight field with the empty string
stores `NaN` in the current day's weight, not `0`. -/
theorem c2_counterexample_empty_weight_stores_nan :
    (readDay (handleLogChange initialState "weight" "") 0).weight = JsNum.nan ∧
    parseFloat "" = JsNum.nan ∧
    parseFloat "abc" = JsNum.nan ∧
    JsNum.nan ≠ JsNum.num 0 := by decide

/-- C2, amended: `handleLogChange` on the weight field stores
`parseFloat(value)` — a number when the string parses, `NaN` (not `0`)
when it is empty or unparseable — in the current day's weight, merging
the day's other fields unchanged and leaving every other day untouched.
Hypotheses: the day addresses in the weekly log are allocated (below the
next free address) and the current day index is in range. -/
theorem c2_amended_weight_update_stores_parseFloat (s : AppState) (v : String)
    (hfresh : ∀ a ∈ s.weeklyLog, a < s.heap.nextDay)
    (hidx : s.currentDayIndex < s.weeklyLog.length) :
    (readDay (handleLogChange s "weight" v) s.currentDayIndex).weight = parseFloat v ∧
    (readDay (handleLogChange s "weight" v) s.currentDayIndex).food =
      (readDay s s.currentDayIndex).food ∧
    (readDay (handleLogChange s "weight" v) s.currentDayIndex).mood =
      (readDay s s.currentDayIndex).mood ∧
    (readDay (handleLogChange s "weight" v) s.currentDayIndex).activityLevel =
      (readDay s s.currentDayIndex).activityLevel ∧
    ∀ j, j < s.weeklyLog.length → j ≠ s.currentDayIndex →
      readDay (handleLogChange s "weight" v) j = readDay s j := by
  have hset : (s.weeklyLog.set s.currentDayIndex s.heap.nextDay).getD s.currentDayIndex 0 =
      s.heap.nextDay := by
    rw [List.getD_eq_getElem?_getD, List.getElem?_set_eq_of_lt _ hidx]
    rfl
  have hmain : readDay (handleLogChange s "weight" v) s.currentDayIndex =
      { weight := parseFloat v
        food := (readDay s s.currentDayIndex).food
        mood := (readDay s s.currentDayIndex).mood
        activityLevel := (readDay s s.currentDayIndex).activityLevel } := by
    simp only [readDay, handleLogChange, hset]
    simp [updDayField]
  refine ⟨by rw [hmain], by rw [hmain], by rw [hmain], by rw [hmain], ?_⟩
  intro j hj hne
  have hnd : (s.weeklyLog.set s.currentDayIndex s.heap.nextDay).getD j 0 =
      s.weeklyLog.getD j 0 := by
    rw [List.getD_eq_getElem?_getD, List.getD_eq_getElem?_getD,
      List.getElem?_set_ne (Ne.symm hne)]
  have hmem : s.weeklyLog.getD j 0 ∈ s.weeklyLog := by
    rw [List.getD_eq_getElem?_getD, List.getElem?_eq_getElem hj]
    exact List.getElem_mem hj
  have haddr : s.weeklyLog.getD j 0 ≠ s.heap.nextDay := Nat.ne_of_lt (hfresh _ hmem)
  simp only [readDay, handleLogChange, hnd]
  rw [if_neg haddr]

/-- C2, witness: the amended theorem instantiated on the fresh state with
input string `5`. -/
theorem c2_amended_witness :
    (readDay (handleLogChange initialState "weight" "5") 0).weight = parseFloat "5" ∧
    (readDay (handleLogChange initialState "weight" "5") 0).mood = (readDay initialState 0).mood := by
  have h := c2_amended_weight_update_stores_parseFloat initialState "5" (by decide) (by decide)
  exact ⟨h.1, h.2.2.1⟩

/-- C3: after a food edit on a fresh session, a confirmed week reset does
NOT restore a blank weekly log — `handleFoodChange` mutated the day
object shared with the module constant `initialWeeklyLog`, so the
"reset" log still shows the edited breakfast. The claim (reset always
yields 7 blank entries) fails on this reachable trace. -/
theorem c3_reset_after_food_edit_not_blank :
    (readDay (handleNewWeek (handleFoodChange initialState "breakfast" "eggs") true) 0).food.breakfast
      = "eggs" ∧
    (handleNewWeek (handleFoodChange initialState "breakfast" "eggs") true).weeklyLog =
      initialWeeklyLogRefs ∧
    readDay (handleNewWeek (handleFoodChange initialState "breakfast" "eggs") true) 0 ≠
      initialDailyLog := by decide

/-- C4: `handleFoodChange` mutates, in place, the day object at the
current index — an object reachable from the pre-update weekly log and
listed in the module constant `initialWeeklyLog` — contradicting the
claim that no object aliased by the previous state is ever mutated. -/
theorem c4_foodChange_mutates_aliased_day_object :
    (initialState.weeklyLog.getD initialState.currentDayIndex 0) ∈ initialState.weeklyLog ∧
    (initialState.weeklyLog.getD initialState.currentDayIndex 0) ∈ initialWeeklyLogRefs ∧
    (handleFoodChange initialState "breakfast" "eggs").heap.days
        (initialState.weeklyLog.getD initialState.currentDayIndex 0) ≠
      initialState.heap.days (initialState.weeklyLog.getD initialState.currentDayIndex 0) := by
  decide

/-- C5, counterexample: after typing and then clearing the weight input,
day 0's weight is `NaN` (not `0`), yet generation is still skipped as
"no data" — refuting the claim's "exactly when every day's weight is 0"
reading. -/
theorem c5_counterexample_nan_weight_still_skips :
    generateSummaryAction none (daysOf (handleLogChange initialState "weight" ""))
        initialMetrics = GenAction.skippedNoData ∧
    (readDay (handleLogChange initialState "weight" "") 0).weight ≠ JsNum.num 0 := by decide

/-- C5, amended: `generateSummary` skips the provider call and reports
"no data" exactly when no day has a weight greater than 0 (a weight of 0
or the `NaN` stored by clearing the field both count as no data), every
day's food and mood fields are empty, and every metrics field is empty;
otherwise a generation request is made. -/
theorem c5_amended_skip_iff_nothing_recorded (p : Option UserProfile) (log : List DailyLog)
    (m : Metrics) :
    generateSummaryAction p log m = GenAction.skippedNoData ↔
      ((∀ d ∈ log, d.weight.gt0 = false ∧ (∀ f ∈ foodValues d.food, f = "") ∧ d.mood = "") ∧
        ∀ x ∈ metricsValues m, x = "") := by
  have key : hasData log m = false ↔
      ((∀ d ∈ log, d.weight.gt0 = false ∧ (∀ f ∈ foodValues d.food, f = "") ∧ d.mood = "") ∧
        ∀ x ∈ metricsValues m, x = "") := by
    simp [hasData, dayHasData, strTruthy, not_or, and_assoc]
  rw [← key]
  unfold generateSummaryAction
  constructor
  · intro he
    by_cases h : hasData log m
    · rw [if_pos h] at he
      exact absurd he (by simp)
    · simpa using h
  · intro hf
    rw [if_neg]
    simp [hf]

/-- C6: both call sites — the PDF export and the on-screen tracker —
select the current weight as the weight of the highest-indexed day whose
weight is greater than 0 (first match scanning from the end), and fall
back to the profile's initial weight when no day qualifies. -/
theorem c6_lastWeight_highest_indexed_positive_day (log : List DailyLog) (init : ℚ) :
    lastWeightForPdf log init = lastWeightSpecRule log init ∧
    lastWeightOnScreen log init = lastWeightSpecRule log init ∧
    ((∀ d ∈ log, d.weight.gt0 = false) → lastWeightForPdf log init = JsNum.num init) := by
  refine ⟨?_, ?_, ?_⟩
  · simp only [lastWeightForPdf, lastWeightSpecRule, filter_getLast?_eq_reverse_find?]
  · simp only [lastWeightOnScreen, lastWeightSpecRule, filter_getLast?_eq_reverse_find?]
  · intro hall
    unfold lastWeightForPdf
    rw [List.filter_eq_nil_iff.mpr (by simpa using hall)]
    rfl

/-- C6, witness: the equations instantiated on a three-day log whose
positive weights sit at indices 0 and 2. -/
theorem c6_lastWeight_witness :
    lastWeightForPdf
        [{ initialDailyLog with weight := JsNum.num 3 }, initialDailyLog,
          { initialDailyLog with weight := JsNum.num 5 }] 80 =
      lastWeightSpecRule
        [{ initialDailyLog with weight := JsNum.num 3 }, initialDailyLog,
          { initialDailyLog with weight := JsNum.num 5 }] 80 := by
  exact (c6_lastWeight_highest_indexed_positive_day
    [{ initialDailyLog with weight := JsNum.num 3 }, initialDailyLog,
      { initialDailyLog with weight := JsNum.num 5 }] 80).1

/-- C7: for positive initial and goal weights, in the gain direction
(`I < G`) the progress value is monotone non-decreasing in the current
weight on `[I, G]`, reaches 100 exactly at `C = G`, and stays in
`[0, 100]` for any current weight outside `[I, G]`; the symmetric
statement holds in the loss direction (`G < I`). -/
theorem c7_progress_monotone_and_clamped (I G : ℚ) (hI : 0 < I) (hG : 0 < G) :
    (I < G →
      (∀ C C', I ≤ C → C ≤ C' → C' ≤ G →
        (calculateProgress I C G).1 ≤ (calculateProgress I C' G).1) ∧
      (∀ C, I ≤ C → C ≤ G → ((calculateProgress I C G).1 = 100 ↔ C = G)) ∧
      (∀ C, C < I ∨ G < C →
        0 ≤ (calculateProgress I C G).1 ∧ (calculateProgress I C G).1 ≤ 100)) ∧
    (G < I →
      (∀ C C', G ≤ C' → C' ≤ C → C ≤ I →
        (calculateProgress I C G).1 ≤ (calculateProgress I C' G).1) ∧
      (∀ C, G ≤ C → C ≤ I → ((calculateProgress I C G).1 = 100 ↔ C = G)) ∧
      (∀ C, C < G ∨ I < C →
        0 ≤ (calculateProgress I C G).1 ∧ (calculateProgress I C G).1 ≤ 100)) := by
  constructor
  · intro h
    exact ⟨fun C C' h1 h2 h3 => gain_mono I G h C C' h2,
      fun C hC1 hC2 => gain_eq100_iff I G h C hC1 hC2,
      fun C _ => range_gain I G h C⟩
  · intro h
    exact ⟨fun C C' h1 h2 h3 => loss_mono I G h C C' h2,
      fun C hC1 hC2 => loss_eq100_iff I G h C hC1 hC2,
      fun C _ => range_loss I G h C⟩

/-- C7, witness: monotonicity at `I=70, G=80` with `C=72 ≤ C'=75`, loss
antitonicity at `I=80, G=70` with `C'=73 ≤ C=75`, and progress 100 at the
gain goal. -/
theorem c7_progress_witness :
    (calculateProgress 70 72 80).1 ≤ (calculateProgress 70 75 80).1 ∧
    (calculateProgress 80 75 70).1 ≤ (calculateProgress 80 73 70).1 ∧
    (calculateProgress 70 80 80).1 = 100 := by
  have hg := c7_progress_monotone_and_clamped 70 80 (by norm_num) (by norm_num)
  have hl := c7_progress_monotone_and_clamped 80 70 (by norm_num) (by norm_num)
  refine ⟨(hg.1 (by norm_num)).1 72 75 (by norm_num) (by norm_num) (by norm_num),
    (hl.2 (by norm_num)).1 75 73 (by norm_num) (by norm_num) (by norm_num),
    ((hg.1 (by norm_num)).2.1 80 (by norm_num) (by norm_num)).mpr rfl⟩

/-- C8: `calculateProgress(80, 75, 70)` returns progress 50 and the
status sentence reporting 5.00 kg lost and 5.00 kg remaining. -/
theorem c8_example_80_75_70 :
    calculateProgress 80 75 70 =
      (50, "Has perdido 5.00 kg. ¡Te faltan 5.00 kg para tu meta!") := by
  norm_num [calculateProgress, jsAbs, jsMin, jsMax, toFixed2]
  rfl

/-- C9: every execution path of `generateSummary` — the no-data skip,
the success path, and the provider-failure path — ends with the loading
flag cleared. -/
theorem c9_loading_cleared_on_all_paths (s : AppState) (r : Except Unit String) :
    (generateSummaryRun s r).loading = false := by
  unfold generateSummaryRun
  cases r <;> split <;> rfl

/-- C10: the has-data check ignores `activityLevel` entirely: whatever
activity level each day carries, a week with no weights, foods or moods
and blank metrics is skipped as "no data". -/
theorem c10_activity_level_ignored_by_hasData (acts : List String) (p : Option UserProfile) :
    generateSummaryAction p
      (acts.map fun a =>
        { weight := JsNum.num 0, food := initialDailyLog.food, mood := "", activityLevel := a })
      initialMetrics = GenAction.skippedNoData := by
  simp [generateSummaryAction, hasData, dayHasData, List.any_map, Function.comp,
    strTruthy, foodValues, metricsValues, initialMetrics, initialDailyLog, JsNum.gt0]

end FitnessApp
